import Mathlib

/-!
Verification of the scrape-and-reconcile core of the bodyguardamerica/housing
scraper (src/scraper), as a shallow embedding in Lean.

Modelling conventions, chosen once for the whole file:

- Calendar dates (datetime.date values) are modelled as day ordinals (Nat):
  ordering, equality and day differences agree with the source, and the string
  rendering of a date in hash parts is modelled by the decimal rendering of the
  ordinal.  Every claim settled here is insensitive to the exact textual form
  of one date, only to the presence and distinctness of the date field.
- Python float arithmetic on rates and delay multipliers is modelled over the
  rationals, following the arithmetic expressions of the source verbatim.
- Python dicts are modelled as association lists in insertion order, with
  first-match lookup; dict iteration order is insertion order, as in CPython.
- The builtin sorted(...) is modelled by a stable insertion sort; sorted is
  documented as stable, and a stable sort for a given total preorder is
  extensionally unique, so any stable sort is a faithful model.
-/

/-! ### Python string comparison

Python compares strings lexicographically by code point.  The comparison is
written over the underlying character list so that every use of it reduces in
the kernel. -/
/-- Strict lexicographic order on character lists by code point
(the Python string less-than). -/
def charListLt : List Char → List Char → Bool
  | [], [] => false
  | [], _ :: _ => true
  | _ :: _, [] => false
  | a :: as, b :: bs => if a = b then charListLt as bs else decide (a.toNat < b.toNat)

/-- Python string less-than. -/
def strLt (a b : String) : Bool := charListLt a.data b.data

/-! ### A stable sort modelling the Python builtin sorted -/
/-- Insert an element into a sorted list, before the first entry that is not
le-below it.  An incoming element is placed after existing le-equal entries,
which is exactly the stability contract of the Python sorted builtin when the
list is built by folding from the right. -/
def insertSorted (le : α → α → Bool) (a : α) : List α → List α
  | [] => [a]
  | b :: bs => if le a b then a :: b :: bs else b :: insertSorted le a bs

/-- Stable sort by the boolean comparison le, modelling sorted(..., key=...). -/
def stableSort (le : α → α → Bool) (l : List α) : List α :=
  l.foldr (insertSorted le) []

/-! ### Data model (src/scraper/models.py) -/
/-- A single day of inventory inside a room block (models.InventoryDay).
The date string of the source is carried pre-parsed as a day ordinal. -/
structure InventoryDay where
  date : Nat
  rate : ℚ
  available : Int
deriving DecidableEq, Repr

/-- A room type offered by a hotel (models.RoomBlock). -/
structure RoomBlock where
  name : String
  inventory : List InventoryDay
deriving DecidableEq, Repr

/-- A hotel in the portal search results (models.HotelResult).  Presentation
fields not consumed by the reconciliation core (distance, message map) are
omitted. -/
structure HotelResult where
  id : Int
  name : String
  blocks : List RoomBlock
deriving DecidableEq, Repr

/-- Availability of one hotel room type on one night (models.NightAvailability). -/
structure NightAvailability where
  hotel_id : Int
  hotel_name : String
  room_type : String
  night_date : Nat
  available_count : Int
  nightly_rate : ℚ
deriving DecidableEq, Repr

/-- Result of a multi-night scrape (models.MultiNightScrapeResult).  The
hotels list of the source is carried separately by the callers modelled here,
so only the fields read by the aggregation and the fingerprint are kept. -/
structure MultiNightScrapeResult where
  nights : List NightAvailability
  check_in : Nat
  check_out : Nat
deriving DecidableEq, Repr

/-- The per-night data stored in raw_block_data of an aggregate snapshot
(a dict in the source). -/
structure NightEntry where
  date : Nat
  available : Int
  rate : ℚ
deriving DecidableEq, Repr

/-- The raw_block_data dict attached to an aggregate room snapshot.  The
sold_out key is absent for ordinary snapshots in the source; absence is
modelled by the value false. -/
structure RawBlockData where
  nights : List NightEntry
  partAvail : Bool
  nights_available : Nat
  total_nights : Int
  sold_out : Bool
deriving DecidableEq, Repr

/-- A room snapshot row to insert (models.RoomSnapshotCreate). -/
structure RoomSnapshotCreate where
  scrape_run_id : String
  hotel_id : String
  room_type : String
  available_count : Int
  nightly_rate : ℚ
  total_price : ℚ
  check_in : Nat
  check_out : Nat
  year : Int
  raw : RawBlockData
deriving DecidableEq, Repr

/-! ### The change fingerprint (database.compute_multi_night_hash) -/
/-- First-match lookup in an association list, modelling dict.get. -/
def assocLookup [DecidableEq κ] (m : List (κ × ν)) (k : κ) : Option ν :=
  (m.find? (fun p => p.1 = k)).map Prod.snd

/-- The sort key comparison used by compute_multi_night_hash:
the Python tuple (hotel_id, room_type, night_date) under tuple less-or-equal. -/
def nightSortLe (a b : NightAvailability) : Bool :=
  if a.hotel_id = b.hotel_id then
    if a.room_type = b.room_type then decide (a.night_date ≤ b.night_date)
    else strLt a.room_type b.room_type
  else decide (a.hotel_id < b.hotel_id)

/-- Fingerprint of a multi-night scrape result (database.compute_multi_night_hash):
nights are sorted by (hotel_id, room_type, night_date) and rendered as
hotel:room:date:count parts joined with a bar.  The hotel_ids dict maps
portal hotel ids to database ids, defaulting to the decimal form of the
portal id. -/
def compute_multi_night_hash (result : MultiNightScrapeResult)
    (hotel_ids : List (Int × String)) : String :=
  String.intercalate "|" ((stableSort nightSortLe result.nights).map (fun n =>
    (assocLookup hotel_ids n.hotel_id).getD (toString n.hotel_id)
      ++ ":" ++ n.room_type ++ ":" ++ toString n.night_date
      ++ ":" ++ toString n.available_count))

/-- The sort key comparison of the previous-hash query ordering
(order=hotel_id,room_type in Database.get_last_scrape_hash). -/
def snapshotSortLe (a b : RoomSnapshotCreate) : Bool :=
  if a.hotel_id = b.hotel_id then
    if a.room_type = b.room_type then true
    else strLt a.room_type b.room_type
  else strLt a.hotel_id b.hotel_id

/-- Pure core of Database.get_last_scrape_hash: given the snapshots persisted
by the last successful changed run, order them by (hotel_id, room_type) and
join hotel:room:count parts with a bar; no snapshots yields None. -/
def last_scrape_hash_of_snapshots (snapshots : List RoomSnapshotCreate) : Option String :=
  if snapshots = [] then none
  else some (String.intercalate "|" ((stableSort snapshotSortLe snapshots).map (fun s =>
    s.hotel_id ++ ":" ++ s.room_type ++ ":" ++ toString s.available_count)))

/-- The comparison of the current fingerprint against the stored previous hash
in main.run_scrape; a missing previous hash (None) never compares equal to a
string. -/
def hashesMatch (current : String) (previous : Option String) : Bool :=
  match previous with
  | some p => current = p
  | none => false

/-- A night record used by the C8 counterexample: fixed key, chosen count. -/
def c8Night (avail : Int) : NightAvailability :=
  { hotel_id := 1, hotel_name := "HotelA", room_type := "King", night_date := 7,
    available_count := avail, nightly_rate := 100 }

/-! ### Aggregation and reconciliation (database.process_multi_night_result) -/
/-- Passkey placeholder threshold (MAX_REASONABLE_AVAILABILITY in
process_multi_night_result). -/
def MAX_REASONABLE_AVAILABILITY : Int := 500

/-- The is_valid_availability predicate of process_multi_night_result:
a real count is strictly positive and below the placeholder threshold. -/
def is_valid_availability (avail : Int) : Bool :=
  decide (0 < avail) && decide (avail < MAX_REASONABLE_AVAILABILITY)

/-- Count of nights of a group with valid availability (nights_available). -/
def nights_available_count (nights : List NightEntry) : Nat :=
  (nights.filter (fun n => is_valid_availability n.available)).length

/-- The valid availability values of a group, in order (valid_nights). -/
def valid_counts (nights : List NightEntry) : List Int :=
  (nights.filter (fun n => is_valid_availability n.available)).map (fun n => n.available)

/-- Full-stay availability of a group: zero unless at least the requested
number of nights carry valid counts, else the minimum of the valid counts. -/
def full_stay_available (total_nights : Int) (nights : List NightEntry) : Int :=
  if (nights_available_count nights : Int) < total_nights then 0
  else match valid_counts nights with
    | [] => 0
    | c :: cs => cs.foldl min c

/-- Average nightly rate over the returned nights of a group. -/
def avg_nightly_rate (nights : List NightEntry) : ℚ :=
  if nights = [] then 0 else (nights.map (fun n => n.rate)).sum / (nights.length : ℚ)

/-- One value of the availability_map dict: hotel display name and the night
entries collected for the key. -/
structure GroupData where
  hotel_name : String
  nights : List NightEntry
deriving DecidableEq, Repr

/-- Append one night entry to the group map, preserving dict insertion order:
an existing key keeps its position and its first-seen hotel name. -/
def insertGrouped (key : Int × String) (hname : String) (e : NightEntry) :
    List ((Int × String) × GroupData) → List ((Int × String) × GroupData)
  | [] => [(key, { hotel_name := hname, nights := [e] })]
  | (k, d) :: rest =>
    if k = key then (k, { d with nights := d.nights ++ [e] }) :: rest
    else (k, d) :: insertGrouped key hname e rest

/-- Group the flat night records by (hotel id, room type) in insertion order
(the availability_map loop of process_multi_night_result). -/
def groupNights (l : List NightAvailability) : List ((Int × String) × GroupData) :=
  l.foldl (fun m n =>
    insertGrouped (n.hotel_id, n.room_type) n.hotel_name
      { date := n.night_date, available := n.available_count, rate := n.nightly_rate } m) []

/-- Data for one previously seen (hotel, room type) key, as read back by
Database.get_latest_room_keys; nights_available models the dict access
raw_block_data.get("nights_available", 0). -/
structure PrevRoomData where
  nightly_rate : ℚ
  available_count : Int
  nights_available : Nat
deriving DecidableEq, Repr

/-- The notification gate availability_changed of process_multi_night_result. -/
def availability_changed (prev_available : Int) (prev_nights : Nat)
    (full_stay : Int) (nights_avail : Nat) : Bool :=
  (decide (prev_available = 0) && decide (0 < full_stay))
  || (decide (prev_nights = 0) && decide (0 < nights_avail))
  || (decide (prev_nights ≠ nights_avail) && decide (0 < nights_avail))

/-- Inputs of one call to process_multi_night_result that are fixed across the
per-group loop: the run id, the year, the hotel id map built from the hotel
cache, and the previous room-keys map. -/
structure AggContext where
  scrape_run_id : String
  year : Int
  hotel_id_map : List (Int × String)
  previous_room_keys : List ((String × String) × PrevRoomData)
deriving Repr

/-- The aggregate snapshot built for one (hotel, room type) group. -/
def mkAggSnapshot (ctx : AggContext) (check_in check_out : Nat) (total_nights : Int)
    (db_hotel_id : String) (room_type : String) (nights : List NightEntry) :
    RoomSnapshotCreate :=
  let na := nights_available_count nights
  { scrape_run_id := ctx.scrape_run_id
    hotel_id := db_hotel_id
    room_type := room_type
    available_count := full_stay_available total_nights nights
    nightly_rate := avg_nightly_rate nights
    total_price := avg_nightly_rate nights * (total_nights : ℚ)
    check_in := check_in
    check_out := check_out
    year := ctx.year
    raw := { nights := nights
             partAvail := decide ((na : Int) < total_nights) && decide (0 < na)
             nights_available := na
             total_nights := total_nights
             sold_out := false } }

/-- State of the phase-1 loop of process_multi_night_result. -/
structure Phase1State where
  snapshots : List RoomSnapshotCreate
  notifIdx : List Nat
  processed : List (String × String)
  rooms_found : Nat
deriving Repr

/-- One iteration of the phase-1 loop: resolve the hotel id (a falsy result,
None or the empty string, skips the group), skip empty groups, then append
the aggregate snapshot, record its index when the notification gate fires,
and mark the key processed. -/
def phase1Step (ctx : AggContext) (check_in check_out : Nat) (total_nights : Int)
    (st : Phase1State) (g : (Int × String) × GroupData) : Phase1State :=
  match assocLookup ctx.hotel_id_map g.1.1 with
  | none => st
  | some db_hotel_id =>
    if db_hotel_id = "" then st
    else if g.2.nights = [] then st
    else
      let snap := mkAggSnapshot ctx check_in check_out total_nights db_hotel_id g.1.2 g.2.nights
      let prev := assocLookup ctx.previous_room_keys (db_hotel_id, g.1.2)
      let prev_available := (prev.map (fun p => p.available_count)).getD 0
      let prev_nights := (prev.map (fun p => p.nights_available)).getD 0
      let changed := availability_changed prev_available prev_nights
        (full_stay_available total_nights g.2.nights) (nights_available_count g.2.nights)
      { snapshots := st.snapshots ++ [snap]
        notifIdx := if changed then st.notifIdx ++ [st.snapshots.length] else st.notifIdx
        processed := st.processed ++ [(db_hotel_id, g.1.2)]
        rooms_found := st.rooms_found + 1 }

/-- Sold-out snapshot synthesized for a previously seen key that is absent
from the current aggregation: zero availability, the previous nightly rate,
and a sold_out tag in the raw block data. -/
def soldOutSnapshot (ctx : AggContext) (check_in check_out : Nat) (total_nights : Int)
    (k : String × String) (p : PrevRoomData) : RoomSnapshotCreate :=
  { scrape_run_id := ctx.scrape_run_id
    hotel_id := k.1
    room_type := k.2
    available_count := 0
    nightly_rate := p.nightly_rate
    total_price := p.nightly_rate * (total_nights : ℚ)
    check_in := check_in
    check_out := check_out
    year := ctx.year
    raw := { nights := [], partAvail := false, nights_available := 0,
             total_nights := total_nights, sold_out := true } }

/-- Result of the pure core of process_multi_night_result. -/
structure ProcessOutcome where
  snapshots : List RoomSnapshotCreate
  notifIdx : List Nat
  processed : List (String × String)
  rooms_found : Nat
deriving Repr

/-- Pure core of database.process_multi_night_result: group the night records,
build one aggregate snapshot per resolvable (hotel, room type) group while
deciding notifications against the previous room keys, then append sold-out
snapshots for previously seen keys absent from the current aggregation. -/
def process_multi_night_result (ctx : AggContext) (result : MultiNightScrapeResult) :
    ProcessOutcome :=
  let total_nights : Int := (result.check_out : Int) - (result.check_in : Int)
  let st := (groupNights result.nights).foldl
    (phase1Step ctx result.check_in result.check_out total_nights)
    { snapshots := [], notifIdx := [], processed := [], rooms_found := 0 }
  let soldOuts := (ctx.previous_room_keys.filter
      (fun kp => decide (¬kp.1 ∈ st.processed))).map
    (fun kp => soldOutSnapshot ctx result.check_in result.check_out total_nights kp.1 kp.2)
  { snapshots := st.snapshots ++ soldOuts
    notifIdx := st.notifIdx
    processed := st.processed
    rooms_found := st.rooms_found }

/-- The notification payloads sent in phase 3 of process_multi_night_result:
the snapshots selected by the recorded indices. -/
def notificationsToSend (out : ProcessOutcome) : List RoomSnapshotCreate :=
  out.notifIdx.filterMap (fun i => out.snapshots[i]?)

/-- The per-night extraction loop of PasskeyClient.scrape_full_range: flatten
the hotel, block, inventory tree into flat night availability records. -/
def scrape_full_range_nights (hotels : List HotelResult) : List NightAvailability :=
  hotels.flatMap (fun h => h.blocks.flatMap (fun b => b.inventory.map (fun inv =>
    { hotel_id := h.id, hotel_name := h.name, room_type := b.name,
      night_date := inv.date, available_count := inv.available,
      nightly_rate := inv.rate })))

/-! ### Rate limiting (passkey.RateLimitState) -/
/-- Rate limiting state (passkey.RateLimitState).  The last_429_time float of
the source is abstracted to a presence flag; the comparison of elapsed real
time against 60 seconds inside record_success is passed in as a boolean. -/
structure RateLimitState where
  consecutive_429s : Nat
  delay_multiplier : ℚ
  last_429_seen : Bool
  cautious_mode : Bool
  base_delay : ℚ
  max_delay : ℚ
deriving DecidableEq, Repr

/-- The dataclass defaults of RateLimitState. -/
def initRateLimitState : RateLimitState :=
  { consecutive_429s := 0, delay_multiplier := 1, last_429_seen := false,
    cautious_mode := false, base_delay := 1/10, max_delay := 5 }

/-- record_429: count the throttle, remember it, enter cautious mode, and
double the delay multiplier capped at 10. -/
def record_429 (s : RateLimitState) : RateLimitState :=
  { s with consecutive_429s := s.consecutive_429s + 1, last_429_seen := true,
           cautious_mode := true,
           delay_multiplier := min (s.delay_multiplier * 2) 10 }

/-- record_success: reset the counter, decay the multiplier by ten percent
toward 1 when above 1, and leave cautious mode when a throttle was seen more
than 60 seconds ago. -/
def record_success (elapsedOver60 : Bool) (s : RateLimitState) : RateLimitState :=
  let m := if 1 < s.delay_multiplier then max 1 (s.delay_multiplier * (9/10))
           else s.delay_multiplier
  { s with consecutive_429s := 0, delay_multiplier := m,
           cautious_mode := if s.last_429_seen && elapsedOver60 then false
                            else s.cautious_mode }

/-- get_delay: base delay scaled by the multiplier, capped at max_delay. -/
def get_delay (s : RateLimitState) : ℚ :=
  min (s.base_delay * s.delay_multiplier) s.max_delay

/-- should_abort: five or more consecutive throttles. -/
def should_abort (s : RateLimitState) : Bool := decide (5 ≤ s.consecutive_429s)

/-- One recorded rate-limit event: a throttled response, or a successful
request with the given value of the sixty-second elapsed comparison. -/
inductive RateLimitOp
  | throttle
  | success (elapsedOver60 : Bool)
deriving DecidableEq, Repr

/-- Apply a sequence of recorded events to a rate-limit state. -/
def applyRateLimitOps (ops : List RateLimitOp) (s : RateLimitState) : RateLimitState :=
  ops.foldl (fun s op => match op with
    | .throttle => record_429 s
    | .success e => record_success e s) s

/-! ### The scrape retry loop (PasskeyClient.scrape) -/
/-- Outcome of one submit_search call: the tri-state of the source, where
failed covers both an expired session and an HTTP error. -/
inductive SubmitOutcome
  | ok
  | throttled
  | failed
deriving DecidableEq, Repr

/-- Outcome of one fetch_results call: hotels parsed, throttled, an HTTP
error before the success was recorded, or a parse failure after it. -/
inductive FetchOutcome
  | got (hotels : List HotelResult)
  | throttled
  | httpFailed
  | parseFailed
deriving DecidableEq, Repr

/-- Portal behavior consumed by one attempt of the retry loop, indexed by the
attempt number: whether session initialization succeeds, the submit outcome,
the fetch outcome, and the real-time comparison consumed by record_success. -/
structure ScrapeEnv where
  initOk : Nat → Bool
  submit : Nat → SubmitOutcome
  fetch : Nat → FetchOutcome
  elapsedOver60 : Nat → Bool

/-- The retry loop of PasskeyClient.scrape: one recursive step per loop
iteration of the source, with the remaining attempt budget counting down on
every continue (a throttled response consumes an attempt exactly like any
other retry).  The session token is abstracted to a presence flag.  The loop
never raises: every exit is a returned value, None on failure. -/
def scrapeLoop (env : ScrapeEnv) :
    Nat → Nat → Bool → RateLimitState → Option (List HotelResult) × RateLimitState
  | 0, _, _, s => (none, s)
  | rem + 1, idx, hasSession, s =>
    if should_abort s then (none, s)
    else if !hasSession && !env.initOk idx then
      scrapeLoop env rem (idx + 1) false s
    else
      match env.submit idx with
      | .throttled => scrapeLoop env rem (idx + 1) true (record_429 s)
      | .failed => scrapeLoop env rem (idx + 1) false s
      | .ok =>
        let s1 := record_success (env.elapsedOver60 idx) s
        match env.fetch idx with
        | .throttled => scrapeLoop env rem (idx + 1) true (record_429 s1)
        | .httpFailed => scrapeLoop env rem (idx + 1) true s1
        | .parseFailed =>
          scrapeLoop env rem (idx + 1) true (record_success (env.elapsedOver60 idx) s1)
        | .got hotels => (some hotels, record_success (env.elapsedOver60 idx) s1)

/-- PasskeyClient.scrape for a fresh client: no cached session, fresh
rate-limit state, and the given retry budget (max_retries, default 3). -/
def scrapeRun (env : ScrapeEnv) (max_retries : Nat) :
    Option (List HotelResult) × RateLimitState :=
  scrapeLoop env max_retries 0 false initRateLimitState

/-- An environment whose every submit attempt is throttled. -/
def allThrottledEnv : ScrapeEnv :=
  { initOk := fun _ => true, submit := fun _ => SubmitOutcome.throttled,
    fetch := fun _ => FetchOutcome.got [], elapsedOver60 := fun _ => false }

/-! ### The run_scrape control flow (main.run_scrape) -/
/-- Parameter names of database.process_multi_night_result. -/
def processMultiNightParams : List String :=
  ["db", "result", "scrape_run_id", "year", "timing", "hotel_cache"]

/-- Keyword arguments of the call to process_multi_night_result inside
main.run_scrape, after its four positional arguments. -/
def runScrapeCallKeywords : List String := ["timing", "hotel_cache", "room_keys_cache"]

/-- Number of values returned by process_multi_night_result
(the source returns the pair of hotel and room counts). -/
def processMultiNightReturnLen : Nat := 2

/-- Number of variables the call site unpacks the returned tuple into
(hotels_found, rooms_found, snapshots). -/
def runScrapeUnpackLen : Nat := 3

/-- A Python call raises a TypeError unless every keyword argument names a
parameter of the callee, and unpacking raises unless the lengths agree. -/
def processCallRaises : Bool :=
  !(runScrapeCallKeywords.all (fun k => processMultiNightParams.contains k)
    && decide (processMultiNightReturnLen = runScrapeUnpackLen))

/-- The terminal record written for one invocation of main.run_scrape, as a
(status, no_changes) pair, as a function of whether the suspicious-data-drop
guard fires and whether the current fingerprint equals the stored previous
hash: the guard writes skipped, a matching hash writes success with the
no-changes flag, and the changed-data path calls process_multi_night_result,
landing in the exception handler that writes error when the call raises. -/
def runScrapeRecord (suspicious hashEq : Bool) : String × Bool :=
  if suspicious then ("skipped", false)
  else if hashEq then ("success", true)
  else if processCallRaises then ("error", false)
  else ("success", false)

/-! ### A flat view of the phase-1 loop, used to reason about the fold -/
/-- The records produced by the phase-1 loop of process_multi_night_result as
a flat list: for each group that resolves to a non-empty hotel id and has
night data, its aggregate snapshot paired with its notification flag. -/
def aggRecords (ctx : AggContext) (check_in check_out : Nat) (total_nights : Int)
    (groups : List ((Int × String) × GroupData)) : List (RoomSnapshotCreate × Bool) :=
  groups.filterMap (fun g =>
    match assocLookup ctx.hotel_id_map g.1.1 with
    | none => none
    | some db_hotel_id =>
      if db_hotel_id = "" then none
      else if g.2.nights = [] then none
      else
        let prev := assocLookup ctx.previous_room_keys (db_hotel_id, g.1.2)
        some (mkAggSnapshot ctx check_in check_out total_nights db_hotel_id g.1.2 g.2.nights,
          availability_changed ((prev.map (fun p => p.available_count)).getD 0)
            ((prev.map (fun p => p.nights_available)).getD 0)
            (full_stay_available total_nights g.2.nights)
            (nights_available_count g.2.nights)))

/-- The aggregate records of one call to process_multi_night_result. -/
def aggRecordsOf (ctx : AggContext) (result : MultiNightScrapeResult) :
    List (RoomSnapshotCreate × Bool) :=
  aggRecords ctx result.check_in result.check_out
    ((result.check_out : Int) - (result.check_in : Int)) (groupNights result.nights)

/-- Positions holding true in a list of flags, counting from the given
starting index. -/
def trueIdxFrom : Nat → List Bool → List Nat
  | _, [] => []
  | k, true :: bs => k :: trueIdxFrom (k + 1) bs
  | k, false :: bs => trueIdxFrom (k + 1) bs

/-- Context of the C3 counterexample: one mapped hotel, no previous keys. -/
def c3Ctx : AggContext :=
  { scrape_run_id := "r", year := 2026, hotel_id_map := [(1, "u1")],
    previous_room_keys := [] }

/-- Payload of the C3 counterexample: a one-night requested range whose group
carries two valid night entries. -/
def c3Result : MultiNightScrapeResult :=
  { nights := [{ hotel_id := 1, hotel_name := "HotelA", room_type := "King",
                 night_date := 7, available_count := 2, nightly_rate := 100 },
               { hotel_id := 1, hotel_name := "HotelA", room_type := "King",
                 night_date := 8, available_count := 3, nightly_rate := 100 }],
    check_in := 7, check_out := 8 }

/-- Context of the C3 witness. -/
def c3wCtx : AggContext :=
  { scrape_run_id := "r", year := 2026, hotel_id_map := [(1, "u1")],
    previous_room_keys := [] }

/-- Payload of the C3 witness: a one-night range with one valid night. -/
def c3wResult : MultiNightScrapeResult :=
  { nights := [{ hotel_id := 1, hotel_name := "HotelA", room_type := "King",
                 night_date := 7, available_count := 2, nightly_rate := 100 }],
    check_in := 7, check_out := 8 }

/-- The single snapshot produced for the C3 witness payload. -/
def c3wSnapshot : RoomSnapshotCreate :=
  mkAggSnapshot c3wCtx 7 8 1 "u1" "King" [{ date := 7, available := 2, rate := 100 }]

/-- Context of the C5 witness: one previously seen key, no hotels mapped. -/
def c5wCtx : AggContext :=
  { scrape_run_id := "r", year := 2026, hotel_id_map := [],
    previous_room_keys := [(("u1", "King"),
      { nightly_rate := 100, available_count := 2, nights_available := 1 })] }

/-- Payload of the C5 witness: a scrape with no record for the previous key. -/
def c5wResult : MultiNightScrapeResult :=
  { nights := [], check_in := 7, check_out := 8 }

/-- The notification gate as worded by the specification (section 4.5 step 3
and the section 8 example): a change for the better only, where a different
count of nights available fires only while the record is still partial. -/
def specChangedForBetter (prev_available : Int) (prev_nights : Nat)
    (full_stay : Int) (nights_avail : Nat) (total_nights : Int) : Prop :=
  (prev_available = 0 ∧ 0 < full_stay)
  ∨ (prev_nights = 0 ∧ 0 < nights_avail)
  ∨ (prev_nights ≠ nights_avail ∧ 0 < nights_avail ∧ (nights_avail : Int) < total_nights)

/-- Context of the C6 counterexample: the key was previously seen with
full-stay availability 1 and one night available. -/
def c6Ctx : AggContext :=
  { scrape_run_id := "r", year := 2026, hotel_id_map := [(1, "u1")],
    previous_room_keys := [(("u1", "King"),
      { nightly_rate := 100, available_count := 1, nights_available := 1 })] }

/-- Payload of the C6 counterexample: a two-night range fully available. -/
def c6Result : MultiNightScrapeResult :=
  { nights := [{ hotel_id := 1, hotel_name := "HotelA", room_type := "King",
                 night_date := 7, available_count := 2, nightly_rate := 100 },
               { hotel_id := 1, hotel_name := "HotelA", room_type := "King",
                 night_date := 8, available_count := 2, nightly_rate := 100 }],
    check_in := 7, check_out := 9 }

/-- Context of the C1 run: one mapped hotel, nothing seen before. -/
def c1Ctx : AggContext :=
  { scrape_run_id := "r1", year := 2026, hotel_id_map := [(1, "u1")],
    previous_room_keys := [] }

/-- The scrape payload of the C1 run: one hotel, one room, one night. -/
def c1Result : MultiNightScrapeResult :=
  { nights := [{ hotel_id := 1, hotel_name := "HotelA", room_type := "King",
                 night_date := 7, available_count := 2, nightly_rate := 100 }],
    check_in := 7, check_out := 8 }

/-- The C7 hotel tree: one hotel, one room block, five inventory days with
counts 2, 2, 0, 2, 2 and arbitrary rates. -/
def c7Hotels (r1 r2 r3 r4 r5 : ℚ) : List HotelResult :=
  [{ id := 1, name := "HotelA",
     blocks := [{ name := "Queen Suite",
                  inventory := [{ date := 0, rate := r1, available := 2 },
                                { date := 1, rate := r2, available := 2 },
                                { date := 2, rate := r3, available := 0 },
                                { date := 3, rate := r4, available := 2 },
                                { date := 4, rate := r5, available := 2 }] }] }]

/-- Context of the C7 scenario. -/
def c7Ctx : AggContext :=
  { scrape_run_id := "r", year := 2026, hotel_id_map := [(1, "u1")],
    previous_room_keys := [] }

/-- The C7 multi-night result: the full-range scrape of the five-night
requested range, flattened by scrape_full_range. -/
def c7Result (r1 r2 r3 r4 r5 : ℚ) : MultiNightScrapeResult :=
  { nights := scrape_full_range_nights (c7Hotels r1 r2 r3 r4 r5),
    check_in := 0, check_out := 5 }

/-! ### Theorems -/

theorem charListLt_irrefl (l : List Char) : charListLt l l = false := by
  induction l with
  | nil => rfl
  | cons a as ih => simp [charListLt, ih]

theorem charListLt_trans {a b c : List Char} (h₁ : charListLt a b = true)
    (h₂ : charListLt b c = true) : charListLt a c = true := by
  induction a generalizing b c with
  | nil =>
    cases b with
    | nil => simp [charListLt] at h₁
    | cons y ys =>
      cases c with
      | nil => simp [charListLt] at h₂
      | cons z zs => simp [charListLt]
  | cons x xs ih =>
    cases b with
    | nil => simp [charListLt] at h₁
    | cons y ys =>
      cases c with
      | nil => simp [charListLt] at h₂
      | cons z zs =>
        simp only [charListLt] at h₁ h₂ ⊢
        by_cases hxy : x = y
        · subst hxy
          simp only [if_pos rfl] at h₁
          by_cases hyz : x = z
          · subst hyz
            simp only [if_pos rfl] at h₂ ⊢
            exact ih h₁ h₂
          · simp only [if_neg hyz] at h₂ ⊢
            exact h₂
        · simp only [if_neg hxy] at h₁
          by_cases hyz : y = z
          · subst hyz
            simp only [if_neg hxy]
            exact h₁
          · simp only [if_neg hyz] at h₂
            by_cases hxz : x = z
            · subst hxz
              simp only [decide_eq_true_eq] at h₁ h₂
              omega
            · simp only [if_neg hxz, decide_eq_true_eq] at h₁ h₂ ⊢
              omega

theorem charListLt_asymm {a b : List Char} (h₁ : charListLt a b = true)
    (h₂ : charListLt b a = true) : False := by
  have := charListLt_trans h₁ h₂
  rw [charListLt_irrefl] at this
  exact Bool.false_ne_true this

theorem charListLt_total {a b : List Char} (h : a ≠ b) :
    charListLt a b = true ∨ charListLt b a = true := by
  induction a generalizing b with
  | nil =>
    cases b with
    | nil => exact absurd rfl h
    | cons y ys => left; rfl
  | cons x xs ih =>
    cases b with
    | nil => right; rfl
    | cons y ys =>
      by_cases hxy : x = y
      · subst hxy
        have hys : xs ≠ ys := fun he => h (by rw [he])
        rcases ih hys with h1 | h1
        · left; simpa [charListLt] using h1
        · right; simpa [charListLt] using h1
      · have hnat : x.toNat ≠ y.toNat := fun he => hxy (Char.ext (UInt32.ext he))
        rcases Nat.lt_or_ge x.toNat y.toNat with hlt | hge
        · left; simp [charListLt, hxy, hlt]
        · right
          have hyx : ¬y = x := fun he => hxy (Eq.symm he)
          simp only [charListLt, if_neg hyx, decide_eq_true_eq]
          omega

theorem strLt_trans {a b c : String} (h₁ : strLt a b = true) (h₂ : strLt b c = true) :
    strLt a c = true := charListLt_trans h₁ h₂

theorem strLt_asymm {a b : String} (h₁ : strLt a b = true) (h₂ : strLt b a = true) :
    False := charListLt_asymm h₁ h₂

theorem strLt_total {a b : String} (h : a ≠ b) : strLt a b = true ∨ strLt b a = true :=
  charListLt_total (fun he => h (String.ext he))

theorem insertSorted_perm (le : α → α → Bool) (a : α) (l : List α) :
    (insertSorted le a l).Perm (a :: l) := by
  induction l with
  | nil => exact List.Perm.refl _
  | cons b bs ih =>
    by_cases h : le a b = true
    · simp [insertSorted, h]
    · simp only [insertSorted, if_neg h]
      exact (List.Perm.cons b ih).trans (List.Perm.swap a b bs)

theorem stableSort_perm (le : α → α → Bool) (l : List α) : (stableSort le l).Perm l := by
  induction l with
  | nil => exact List.Perm.refl _
  | cons a as ih =>
    exact (insertSorted_perm le a (stableSort le as)).trans (List.Perm.cons a ih)

theorem insertSorted_pairwise (le : α → α → Bool)
    (htot : ∀ x y : α, le x y = true ∨ le y x = true)
    (htrans : ∀ x y z : α, le x y = true → le y z = true → le x z = true)
    (a : α) (l : List α) (hl : l.Pairwise (fun x y => le x y = true)) :
    (insertSorted le a l).Pairwise (fun x y => le x y = true) := by
  induction l with
  | nil => simp [insertSorted]
  | cons b bs ih =>
    rcases List.pairwise_cons.mp hl with ⟨hb, hbs⟩
    by_cases h : le a b = true
    · simp only [insertSorted, if_pos h]
      refine List.pairwise_cons.mpr ⟨?_, hl⟩
      intro x hx
      rcases List.mem_cons.mp hx with rfl | hx
      · exact h
      · exact htrans a b x h (hb x hx)
    · simp only [insertSorted, if_neg h]
      refine List.pairwise_cons.mpr ⟨?_, ih hbs⟩
      intro x hx
      have hx' : x ∈ a :: bs := (insertSorted_perm le a bs).mem_iff.mp hx
      rcases List.mem_cons.mp hx' with he | hx'
      · rw [he]
        rcases htot a b with h1 | h1
        · exact absurd h1 h
        · exact h1
      · exact hb x hx'

theorem stableSort_pairwise (le : α → α → Bool)
    (htot : ∀ x y : α, le x y = true ∨ le y x = true)
    (htrans : ∀ x y z : α, le x y = true → le y z = true → le x z = true)
    (l : List α) : (stableSort le l).Pairwise (fun x y => le x y = true) := by
  induction l with
  | nil => simp [stableSort]
  | cons a as ih => exact insertSorted_pairwise le htot htrans a _ ih

/-! ### Order properties of the fingerprint sort key -/
theorem nightSortLe_total (a b : NightAvailability) :
    nightSortLe a b = true ∨ nightSortLe b a = true := by
  unfold nightSortLe
  by_cases h1 : a.hotel_id = b.hotel_id
  · simp only [if_pos h1, if_pos h1.symm]
    by_cases h2 : a.room_type = b.room_type
    · simp only [if_pos h2, if_pos h2.symm, decide_eq_true_eq]
      omega
    · have h2s : ¬b.room_type = a.room_type := fun he => h2 (Eq.symm he)
      simp only [if_neg h2, if_neg h2s]
      exact strLt_total h2
  · have h1s : ¬b.hotel_id = a.hotel_id := fun he => h1 (Eq.symm he)
    simp only [if_neg h1, if_neg h1s, decide_eq_true_eq]
    omega

theorem nightSortLe_trans (a b c : NightAvailability) (h₁ : nightSortLe a b = true)
    (h₂ : nightSortLe b c = true) : nightSortLe a c = true := by
  unfold nightSortLe at h₁ h₂ ⊢
  by_cases hab : a.hotel_id = b.hotel_id
  · by_cases hbc : b.hotel_id = c.hotel_id
    · have hac : a.hotel_id = c.hotel_id := hab.trans hbc
      simp only [if_pos hab] at h₁
      simp only [if_pos hbc] at h₂
      simp only [if_pos hac]
      by_cases rab : a.room_type = b.room_type
      · by_cases rbc : b.room_type = c.room_type
        · have rac : a.room_type = c.room_type := rab.trans rbc
          simp only [if_pos rab, decide_eq_true_eq] at h₁
          simp only [if_pos rbc, decide_eq_true_eq] at h₂
          simp only [if_pos rac, decide_eq_true_eq]
          omega
        · have rac : ¬a.room_type = c.room_type := fun he => rbc (rab.symm.trans he)
          simp only [if_neg rbc] at h₂
          rw [if_neg rac, rab]
          exact h₂
      · by_cases rbc : b.room_type = c.room_type
        · have rac : ¬a.room_type = c.room_type := fun he => rab (he.trans rbc.symm)
          simp only [if_neg rab] at h₁
          rw [if_neg rac, ← rbc]
          exact h₁
        · simp only [if_neg rab] at h₁
          simp only [if_neg rbc] at h₂
          have rac : ¬a.room_type = c.room_type := by
            intro he
            exact strLt_asymm (he ▸ h₁) h₂
          simp only [if_neg rac]
          exact strLt_trans h₁ h₂
    · simp only [if_pos hab] at h₁
      simp only [if_neg hbc, decide_eq_true_eq] at h₂
      have hac : ¬a.hotel_id = c.hotel_id := by
        intro he
        rw [he] at hab
        omega
      simp only [if_neg hac, decide_eq_true_eq]
      omega
  · by_cases hbc : b.hotel_id = c.hotel_id
    · simp only [if_neg hab, decide_eq_true_eq] at h₁
      have hac : ¬a.hotel_id = c.hotel_id := by
        intro he
        rw [← hbc] at he
        omega
      simp only [if_neg hac, decide_eq_true_eq]
      omega
    · simp only [if_neg hab, decide_eq_true_eq] at h₁
      simp only [if_neg hbc, decide_eq_true_eq] at h₂
      have hac : ¬a.hotel_id = c.hotel_id := by omega
      simp only [if_neg hac, decide_eq_true_eq]
      omega

theorem nightSortLe_antisymm_key (a b : NightAvailability) (h₁ : nightSortLe a b = true)
    (h₂ : nightSortLe b a = true) :
    a.hotel_id = b.hotel_id ∧ a.room_type = b.room_type ∧ a.night_date = b.night_date := by
  unfold nightSortLe at h₁ h₂
  by_cases hab : a.hotel_id = b.hotel_id
  · simp only [if_pos hab] at h₁
    simp only [if_pos hab.symm] at h₂
    by_cases rab : a.room_type = b.room_type
    · simp only [if_pos rab, decide_eq_true_eq] at h₁
      simp only [if_pos rab.symm, decide_eq_true_eq] at h₂
      exact ⟨hab, rab, by omega⟩
    · have rabs : ¬b.room_type = a.room_type := fun he => rab (Eq.symm he)
      simp only [if_neg rab] at h₁
      simp only [if_neg rabs] at h₂
      exact (strLt_asymm h₁ h₂).elim
  · have habs : ¬b.hotel_id = a.hotel_id := fun he => hab (Eq.symm he)
    simp only [if_neg hab, decide_eq_true_eq] at h₁
    simp only [if_neg habs, decide_eq_true_eq] at h₂
    omega

/-- Two permuted lists with pairwise-distinct sort keys have the same stable
sort, for any comparison that is total, transitive, and antisymmetric up to
the key. -/
theorem stableSort_eq_of_perm_of_nodup_key {α κ : Type _} (le : α → α → Bool) (key : α → κ)
    (htot : ∀ x y : α, le x y = true ∨ le y x = true)
    (htrans : ∀ x y z : α, le x y = true → le y z = true → le x z = true)
    (hanti : ∀ x y : α, le x y = true → le y x = true → key x = key y)
    {l₁ l₂ : List α} (hp : l₁.Perm l₂) (hnd : (l₁.map key).Nodup) :
    stableSort le l₁ = stableSort le l₂ := by
  apply @List.Perm.eq_of_sorted α (fun x y : α => le x y = true) _ _
  · intro x y hx hy hxy hyx
    have hx1 : x ∈ l₁ := (stableSort_perm le l₁).mem_iff.mp hx
    have hy1 : y ∈ l₁ := hp.symm.mem_iff.mp ((stableSort_perm le l₂).mem_iff.mp hy)
    exact List.inj_on_of_nodup_map hnd hx1 hy1 (hanti x y hxy hyx)
  · exact stableSort_pairwise le htot htrans l₁
  · exact stableSort_pairwise le htot htrans l₂
  · exact (stableSort_perm le l₁).trans (hp.trans (stableSort_perm le l₂).symm)

/-- C8 amended: the fingerprint is invariant under permutations of the nights
list whenever the (hotel id, room type, date) sort keys are pairwise distinct;
with a duplicated key the stable sort preserves input order of the duplicates
and permutation invariance fails (see the counterexample). -/
theorem multi_night_hash_perm_invariant (nights₁ nights₂ : List NightAvailability)
    (ci co : Nat) (hotel_ids : List (Int × String))
    (hperm : nights₁.Perm nights₂)
    (hkeys : (nights₁.map (fun n => (n.hotel_id, n.room_type, n.night_date))).Nodup) :
    compute_multi_night_hash ⟨nights₁, ci, co⟩ hotel_ids
      = compute_multi_night_hash ⟨nights₂, ci, co⟩ hotel_ids := by
  unfold compute_multi_night_hash
  have hsort : stableSort nightSortLe nights₁ = stableSort nightSortLe nights₂ := by
    apply stableSort_eq_of_perm_of_nodup_key nightSortLe
      (fun n => (n.hotel_id, n.room_type, n.night_date))
      nightSortLe_total nightSortLe_trans ?_ hperm hkeys
    intro x y hxy hyx
    rcases nightSortLe_antisymm_key x y hxy hyx with ⟨h1, h2, h3⟩
    simp [h1, h2, h3]
  simp only [hsort]

/-- C8 counterexample: two nights sharing the (hotel, room, date) sort key but
with different counts; the stable sort keeps their input order, so swapping
them changes the fingerprint. -/
theorem multi_night_hash_perm_counterexample :
    ([c8Night 1, c8Night 2] : List NightAvailability).Perm [c8Night 2, c8Night 1] ∧
    compute_multi_night_hash ⟨[c8Night 1, c8Night 2], 7, 8⟩ []
      ≠ compute_multi_night_hash ⟨[c8Night 2, c8Night 1], 7, 8⟩ [] := by
  constructor
  · decide
  · decide

/-- C8 witness: the amended invariance theorem applied at a concrete pair of
permuted night lists with distinct keys. -/
theorem multi_night_hash_perm_invariant_witness :
    compute_multi_night_hash ⟨[c8Night 1, { c8Night 2 with hotel_id := 2 }], 7, 8⟩ []
      = compute_multi_night_hash ⟨[{ c8Night 2 with hotel_id := 2 }, c8Night 1], 7, 8⟩ [] :=
  multi_night_hash_perm_invariant _ _ 7 8 [] (by decide) (by decide)

theorem phase1_foldl_eq (ctx : AggContext) (ci co : Nat) (tn : Int)
    (groups : List ((Int × String) × GroupData)) (st : Phase1State) :
    groups.foldl (phase1Step ctx ci co tn) st =
      { snapshots := st.snapshots ++ (aggRecords ctx ci co tn groups).map Prod.fst
        notifIdx := st.notifIdx
          ++ trueIdxFrom st.snapshots.length ((aggRecords ctx ci co tn groups).map Prod.snd)
        processed := st.processed
          ++ (aggRecords ctx ci co tn groups).map (fun r => (r.1.hotel_id, r.1.room_type))
        rooms_found := st.rooms_found + (aggRecords ctx ci co tn groups).length } := by
  induction groups generalizing st with
  | nil => simp [aggRecords, trueIdxFrom]
  | cons g gs ih =>
    simp only [List.foldl_cons]
    rw [ih]
    cases hq : assocLookup ctx.hotel_id_map g.1.1 with
    | none =>
      simp [phase1Step, aggRecords, List.filterMap_cons, hq]
    | some dbId =>
      by_cases hempty : dbId = ""
      · simp [phase1Step, aggRecords, List.filterMap_cons, hq, hempty]
      · by_cases hn : g.2.nights = []
        · simp [phase1Step, aggRecords, List.filterMap_cons, hq, hempty, hn]
        · simp only [phase1Step, aggRecords, List.filterMap_cons, hq, if_neg hempty, if_neg hn]
          cases hflag : availability_changed
              ((Option.map (fun p => p.available_count)
                (assocLookup ctx.previous_room_keys (dbId, g.1.2))).getD 0)
              ((Option.map (fun p => p.nights_available)
                (assocLookup ctx.previous_room_keys (dbId, g.1.2))).getD 0)
              (full_stay_available tn g.2.nights) (nights_available_count g.2.nights) with
          | false =>
            simp [hflag, trueIdxFrom, mkAggSnapshot, List.append_assoc]
            omega
          | true =>
            simp [hflag, trueIdxFrom, mkAggSnapshot, List.append_assoc]
            omega

/-- Decomposition of process_multi_night_result: the snapshots are the flat
aggregate records followed by the synthesized sold-out snapshots, the
notification indices are the flagged positions of the aggregate records, and
the processed keys are the keys of the aggregate snapshots. -/
theorem process_multi_night_result_eq (ctx : AggContext) (result : MultiNightScrapeResult) :
    process_multi_night_result ctx result =
      { snapshots := (aggRecordsOf ctx result).map Prod.fst
          ++ ((ctx.previous_room_keys.filter
                (fun kp => decide (¬kp.1 ∈ (aggRecordsOf ctx result).map
                  (fun r => (r.1.hotel_id, r.1.room_type))))).map
              (fun kp => soldOutSnapshot ctx result.check_in result.check_out
                ((result.check_out : Int) - (result.check_in : Int)) kp.1 kp.2))
        notifIdx := trueIdxFrom 0 ((aggRecordsOf ctx result).map Prod.snd)
        processed := (aggRecordsOf ctx result).map (fun r => (r.1.hotel_id, r.1.room_type))
        rooms_found := (aggRecordsOf ctx result).length } := by
  simp only [process_multi_night_result, aggRecordsOf, phase1_foldl_eq]
  simp

/-- Every aggregate record is an aggregate snapshot of some group, flagged by
the notification gate applied to its own previous-key lookup. -/
theorem mem_aggRecords {ctx : AggContext} {ci co : Nat} {tn : Int}
    {groups : List ((Int × String) × GroupData)} {r : RoomSnapshotCreate × Bool}
    (h : r ∈ aggRecords ctx ci co tn groups) :
    ∃ db_hotel_id room_type nights,
      r.1 = mkAggSnapshot ctx ci co tn db_hotel_id room_type nights ∧
      r.2 = availability_changed
        ((Option.map (fun p => p.available_count)
          (assocLookup ctx.previous_room_keys (db_hotel_id, room_type))).getD 0)
        ((Option.map (fun p => p.nights_available)
          (assocLookup ctx.previous_room_keys (db_hotel_id, room_type))).getD 0)
        (full_stay_available tn nights) (nights_available_count nights) := by
  rcases List.mem_filterMap.mp h with ⟨g, _, hf⟩
  cases hq : assocLookup ctx.hotel_id_map g.1.1 with
  | none => rw [hq] at hf; simp at hf
  | some dbId =>
    rw [hq] at hf
    by_cases hempty : dbId = ""
    · simp [hempty] at hf
    · by_cases hn : g.2.nights = []
      · simp [hempty, hn] at hf
      · simp only [if_neg hempty, if_neg hn, Option.some.injEq] at hf
        exact ⟨dbId, g.1.2, g.2.nights, by rw [← hf], by rw [← hf]⟩

/-- If a group yields positive full-stay availability then at least the
requested number of nights carry valid counts. -/
theorem full_stay_pos_nights_ge (tn : Int) (nights : List NightEntry)
    (h : 0 < full_stay_available tn nights) :
    tn ≤ (nights_available_count nights : Int) := by
  unfold full_stay_available at h
  by_cases hlt : (nights_available_count nights : Int) < tn
  · rw [if_pos hlt] at h; omega
  · omega

/-- C3 amended: every record produced by process_multi_night_result with
positive full-stay availability covers at least the requested number of
nights; equality can fail when a group carries more night entries than the
requested range (see the counterexample). -/
theorem agg_available_pos_covers_range (ctx : AggContext) (result : MultiNightScrapeResult)
    (s : RoomSnapshotCreate) (hs : s ∈ (process_multi_night_result ctx result).snapshots)
    (hpos : 0 < s.available_count) :
    s.raw.total_nights ≤ (s.raw.nights_available : Int) := by
  rw [process_multi_night_result_eq] at hs
  rcases List.mem_append.mp hs with hs | hs
  · rcases List.mem_map.mp hs with ⟨r, hr, hrfst⟩
    rcases mem_aggRecords hr with ⟨dbId, rt, nights, h1, _⟩
    rw [← hrfst, h1] at hpos ⊢
    simp only [mkAggSnapshot] at hpos ⊢
    exact full_stay_pos_nights_ge _ _ hpos
  · rcases List.mem_map.mp hs with ⟨kp, _, hrfst⟩
    rw [← hrfst] at hpos
    simp [soldOutSnapshot] at hpos

/-- C3 counterexample: a produced record with positive full-stay availability
whose count of valid nights differs from the number of nights in the
requested range. -/
theorem agg_available_pos_covers_range_counterexample :
    ∃ s ∈ (process_multi_night_result c3Ctx c3Result).snapshots,
      0 < s.available_count ∧ (s.raw.nights_available : Int) ≠ s.raw.total_nights := by
  decide

/-- C3 witness: the amended theorem applied at a concrete produced record. -/
theorem agg_available_pos_covers_range_witness :
    c3wSnapshot.raw.total_nights ≤ (c3wSnapshot.raw.nights_available : Int) :=
  agg_available_pos_covers_range c3wCtx c3wResult c3wSnapshot (List.Mem.head _) (by decide)

/-! ### Helper lemmas for sold-out synthesis and notification gating -/
theorem mem_trueIdxFrom_bounds {bs : List Bool} {k i : Nat} (h : i ∈ trueIdxFrom k bs) :
    k ≤ i ∧ i < k + bs.length := by
  induction bs generalizing k with
  | nil => simp [trueIdxFrom] at h
  | cons b rest ih =>
    cases b with
    | true =>
      simp only [trueIdxFrom] at h
      rcases List.mem_cons.mp h with he | h
      · subst he; simp
      · have := ih h
        simp only [List.length_cons]
        omega
    | false =>
      simp only [trueIdxFrom] at h
      have := ih h
      simp only [List.length_cons]
      omega

theorem mem_trueIdxFrom_iff {bs : List Bool} {k i : Nat} :
    i ∈ trueIdxFrom k bs
      ↔ ∃ j : Nat, ∃ hj : j < bs.length, k + j = i ∧ bs.get ⟨j, hj⟩ = true := by
  induction bs generalizing k with
  | nil => simp [trueIdxFrom]
  | cons b rest ih =>
    cases b with
    | true =>
      simp only [trueIdxFrom]
      constructor
      · intro h
        rcases List.mem_cons.mp h with he | h
        · exact ⟨0, Nat.succ_pos _, by omega, rfl⟩
        · rcases ih.mp h with ⟨j, hj, hkj, hget⟩
          refine ⟨j + 1, ?_, by omega, hget⟩
          simpa using Nat.succ_lt_succ hj
      · rintro ⟨j, hj, hkj, hget⟩
        cases j with
        | zero =>
          apply List.mem_cons.mpr
          left
          omega
        | succ j =>
          apply List.mem_cons.mpr
          right
          refine ih.mpr ⟨j, ?_, by omega, hget⟩
          simpa using Nat.lt_of_succ_lt_succ (by simpa using hj)
    | false =>
      simp only [trueIdxFrom]
      rw [ih]
      constructor
      · rintro ⟨j, hj, hkj, hget⟩
        refine ⟨j + 1, ?_, by omega, hget⟩
        simpa using Nat.succ_lt_succ hj
      · rintro ⟨j, hj, hkj, hget⟩
        cases j with
        | zero => simp at hget
        | succ j =>
          refine ⟨j, ?_, by omega, hget⟩
          simpa using Nat.lt_of_succ_lt_succ (by simpa using hj)

/-- In a map with pairwise distinct keys, exactly one entry carries a present
key. -/
theorem filter_fst_eq_length_one {κ ν : Type _} [DecidableEq κ]
    (l : List (κ × ν)) (k : κ) (hnd : (l.map Prod.fst).Nodup)
    (hk : k ∈ l.map Prod.fst) :
    (l.filter (fun kp => kp.1 = k)).length = 1 := by
  induction l with
  | nil => simp at hk
  | cons a rest ih =>
    simp only [List.map_cons, List.nodup_cons] at hnd
    by_cases ha : a.1 = k
    · have hrest : rest.filter (fun kp => decide (kp.1 = k)) = [] := by
        rw [List.filter_eq_nil_iff]
        intro kp hkp
        simp only [decide_eq_true_eq]
        intro hq
        exact hnd.1 (by rw [ha, ← hq]; exact List.mem_map.mpr ⟨kp, hkp, rfl⟩)
      simp [List.filter_cons, ha, hrest]
    · have hk' : k ∈ rest.map Prod.fst := by
        simp only [List.map_cons, List.mem_cons] at hk
        rcases hk with h | h
        · exact absurd (Eq.symm h) ha
        · exact h
      simp [List.filter_cons, ha, ih hnd.2 hk']

/-- C5: sold-out synthesis.  For a key of the previous room-keys map that was
not processed by the current aggregation, the reconciliation emits exactly one
snapshot for that key; it has zero availability and the sold_out tag, and no
notification payload carries that key. -/
theorem sold_out_synthesis (ctx : AggContext) (result : MultiNightScrapeResult)
    (k : String × String)
    (hnd : (ctx.previous_room_keys.map Prod.fst).Nodup)
    (hmem : k ∈ ctx.previous_room_keys.map Prod.fst)
    (habs : k ∉ (process_multi_night_result ctx result).processed) :
    (((process_multi_night_result ctx result).snapshots.filter
        (fun s => (s.hotel_id, s.room_type) = k)).length = 1)
    ∧ (∀ s ∈ (process_multi_night_result ctx result).snapshots.filter
        (fun s => (s.hotel_id, s.room_type) = k),
        s.available_count = 0 ∧ s.raw.sold_out = true)
    ∧ (∀ s ∈ notificationsToSend (process_multi_night_result ctx result),
        (s.hotel_id, s.room_type) ≠ k) := by
  rw [process_multi_night_result_eq] at habs ⊢
  simp only [notificationsToSend]
  set recs := aggRecordsOf ctx result with hrecs
  set keys := recs.map (fun r => (r.1.hotel_id, r.1.room_type)) with hkeys
  set aggSnaps := recs.map Prod.fst with haggSnaps
  set soldList := ((ctx.previous_room_keys.filter
      (fun kp => decide (¬kp.1 ∈ keys))).map
    (fun kp => soldOutSnapshot ctx result.check_in result.check_out
      ((result.check_out : Int) - (result.check_in : Int)) kp.1 kp.2)) with hsold
  have haggkeys : ∀ s ∈ aggSnaps, (s.hotel_id, s.room_type) ∈ keys := by
    intro s hs
    rcases List.mem_map.mp hs with ⟨r, hr, hrf⟩
    exact List.mem_map.mpr ⟨r, hr, by rw [hrf]⟩
  have hfilterAgg : aggSnaps.filter (fun s => (s.hotel_id, s.room_type) = k) = [] := by
    rw [List.filter_eq_nil_iff]
    intro s hs
    simp only [decide_eq_true_eq]
    intro he
    exact habs (he ▸ haggkeys s hs)
  have hfilterSold :
      soldList.filter (fun s => (s.hotel_id, s.room_type) = k)
        = ((ctx.previous_room_keys.filter (fun kp => kp.1 = k)).map
            (fun kp => soldOutSnapshot ctx result.check_in result.check_out
              ((result.check_out : Int) - (result.check_in : Int)) kp.1 kp.2)) := by
    rw [hsold, List.filter_map, List.filter_filter]
    congr 1
    apply List.filter_congr
    intro kp _
    by_cases hkp : kp.1 = k
    · simp [soldOutSnapshot, Function.comp, hkp, Prod.mk.eta, habs]
    · simp [soldOutSnapshot, Function.comp, hkp, Prod.mk.eta]
  constructor
  · rw [List.filter_append, hfilterAgg, hfilterSold]
    simp only [List.nil_append, List.length_map]
    exact filter_fst_eq_length_one ctx.previous_room_keys k hnd hmem
  constructor
  · intro s hs
    rw [List.filter_append, hfilterAgg, hfilterSold, List.nil_append] at hs
    rcases List.mem_map.mp hs with ⟨kp, _, hrf⟩
    rw [← hrf]
    exact ⟨rfl, rfl⟩
  · intro s hs
    rcases List.mem_filterMap.mp hs with ⟨i, hi, hget⟩
    have hlt : i < recs.length := by
      have := mem_trueIdxFrom_bounds hi
      simpa using this.2
    have hlt' : i < aggSnaps.length := by
      rw [haggSnaps, List.length_map]
      exact hlt
    rw [List.getElem?_append_left hlt'] at hget
    have hsmem : s ∈ aggSnaps := List.getElem?_mem hget
    intro he
    exact habs (he ▸ haggkeys s hsmem)

/-- C5 witness: the sold-out synthesis theorem applied at a previous snapshot
with availability 2 and a current scrape lacking that key. -/
theorem sold_out_synthesis_witness :
    (((process_multi_night_result c5wCtx c5wResult).snapshots.filter
        (fun s => (s.hotel_id, s.room_type) = ("u1", "King"))).length = 1)
    ∧ (∀ s ∈ (process_multi_night_result c5wCtx c5wResult).snapshots.filter
        (fun s => (s.hotel_id, s.room_type) = ("u1", "King")),
        s.available_count = 0 ∧ s.raw.sold_out = true)
    ∧ (∀ s ∈ notificationsToSend (process_multi_night_result c5wCtx c5wResult),
        (s.hotel_id, s.room_type) ≠ ("u1", "King")) :=
  sold_out_synthesis c5wCtx c5wResult ("u1", "King") (by decide) (by decide) (by decide)

/-- The notification flag of the i-th aggregate record is the gate applied to
the previous-key lookup and availability fields of that record. -/
theorem aggRecords_get_snd (ctx : AggContext) (ci co : Nat) (tn : Int)
    (groups : List ((Int × String) × GroupData)) (i : Nat)
    (hi : i < (aggRecords ctx ci co tn groups).length) :
    ((aggRecords ctx ci co tn groups).get ⟨i, hi⟩).2
      = availability_changed
        ((Option.map (fun p => p.available_count) (assocLookup ctx.previous_room_keys
          (((aggRecords ctx ci co tn groups).get ⟨i, hi⟩).1.hotel_id,
           ((aggRecords ctx ci co tn groups).get ⟨i, hi⟩).1.room_type))).getD 0)
        ((Option.map (fun p => p.nights_available) (assocLookup ctx.previous_room_keys
          (((aggRecords ctx ci co tn groups).get ⟨i, hi⟩).1.hotel_id,
           ((aggRecords ctx ci co tn groups).get ⟨i, hi⟩).1.room_type))).getD 0)
        (((aggRecords ctx ci co tn groups).get ⟨i, hi⟩).1.available_count)
        (((aggRecords ctx ci co tn groups).get ⟨i, hi⟩).1.raw.nights_available) := by
  rcases mem_aggRecords (List.get_mem (aggRecords ctx ci co tn groups) i hi)
    with ⟨dbId, rt, nights, h1, h2⟩
  rw [h2, h1]
  simp [mkAggSnapshot]

/-- The flag of the i-th aggregate record of one processing call. -/
theorem aggRecordsOf_get_snd (ctx : AggContext) (result : MultiNightScrapeResult)
    (i : Nat) (hi : i < (aggRecordsOf ctx result).length) :
    ((aggRecordsOf ctx result).get ⟨i, hi⟩).2
      = availability_changed
        ((Option.map (fun p => p.available_count) (assocLookup ctx.previous_room_keys
          (((aggRecordsOf ctx result).get ⟨i, hi⟩).1.hotel_id,
           ((aggRecordsOf ctx result).get ⟨i, hi⟩).1.room_type))).getD 0)
        ((Option.map (fun p => p.nights_available) (assocLookup ctx.previous_room_keys
          (((aggRecordsOf ctx result).get ⟨i, hi⟩).1.hotel_id,
           ((aggRecordsOf ctx result).get ⟨i, hi⟩).1.room_type))).getD 0)
        (((aggRecordsOf ctx result).get ⟨i, hi⟩).1.available_count)
        (((aggRecordsOf ctx result).get ⟨i, hi⟩).1.raw.nights_available) :=
  aggRecords_get_snd ctx result.check_in result.check_out
    ((result.check_out : Int) - (result.check_in : Int)) (groupNights result.nights) i hi

/-- C6 amended: for an aggregate record with a previous snapshot, its index is
notified if and only if previously zero full-stay availability turned
positive, previously zero nights available turned positive, or the count of
nights available changed while the current count is positive (whether or not
the record is still partial). -/
theorem notification_gate_iff (ctx : AggContext) (result : MultiNightScrapeResult)
    (i : Nat) (hi : i < (aggRecordsOf ctx result).length) (p : PrevRoomData)
    (hp : assocLookup ctx.previous_room_keys
        (((aggRecordsOf ctx result).get ⟨i, hi⟩).1.hotel_id,
         ((aggRecordsOf ctx result).get ⟨i, hi⟩).1.room_type) = some p) :
    (i ∈ (process_multi_night_result ctx result).notifIdx
      ↔ ((p.available_count = 0
            ∧ 0 < ((aggRecordsOf ctx result).get ⟨i, hi⟩).1.available_count)
        ∨ (p.nights_available = 0
            ∧ 0 < ((aggRecordsOf ctx result).get ⟨i, hi⟩).1.raw.nights_available)
        ∨ (p.nights_available ≠ ((aggRecordsOf ctx result).get ⟨i, hi⟩).1.raw.nights_available
            ∧ 0 < ((aggRecordsOf ctx result).get ⟨i, hi⟩).1.raw.nights_available))) := by
  have hflag := aggRecordsOf_get_snd ctx result i hi
  have hmemiff : i ∈ trueIdxFrom 0 ((aggRecordsOf ctx result).map Prod.snd)
      ↔ ((aggRecordsOf ctx result).get ⟨i, hi⟩).2 = true := by
    rw [mem_trueIdxFrom_iff]
    constructor
    · rintro ⟨j, hj, hkj, hget⟩
      have hij : j = i := by omega
      subst hij
      rw [List.get_eq_getElem, List.getElem_map] at hget
      rw [List.get_eq_getElem]
      exact hget
    · intro hget
      have hj : i < ((aggRecordsOf ctx result).map Prod.snd).length := by
        simpa using hi
      refine ⟨i, hj, by omega, ?_⟩
      rw [List.get_eq_getElem, List.getElem_map]
      rw [List.get_eq_getElem] at hget
      exact hget
  rw [process_multi_night_result_eq]
  simp only []
  rw [hmemiff, hflag, hp]
  simp [availability_changed, or_assoc]

/-- C6 counterexample: the produced record went from stored nights_available 1
with positive previous full-stay availability to a fully available stay
(nights_available 2 of 2, no longer partial); the reconciliation notifies its
index, while the gate as worded by the specification does not fire. -/
theorem notification_gate_counterexample :
    0 ∈ (process_multi_night_result c6Ctx c6Result).notifIdx
    ∧ ((process_multi_night_result c6Ctx c6Result).snapshots.map
        (fun s => (s.available_count, s.raw.nights_available, s.raw.total_nights)))
        = [(2, 2, 2)]
    ∧ ¬specChangedForBetter 1 1 2 2 2 := by
  refine ⟨by decide, by decide, ?_⟩
  unfold specChangedForBetter
  decide

/-- C6 witness: the amended gate theorem applied at the counterexample input,
whose third condition fires. -/
theorem notification_gate_iff_witness :
    0 ∈ (process_multi_night_result c6Ctx c6Result).notifIdx := by
  have h := notification_gate_iff c6Ctx c6Result 0 (by decide)
    { nightly_rate := 100, available_count := 1, nights_available := 1 } rfl
  exact h.mpr (Or.inr (Or.inr ⟨by decide, by decide⟩))

/-- C4: a night whose available count is at or above the placeholder
threshold is never classified as valid, contributes nothing to the count of
nights available, and leaves full-stay availability unchanged wherever it
appears in a group. -/
theorem sentinel_night_is_unavailable (total : Int) (l₁ l₂ : List NightEntry)
    (n : NightEntry) (h : MAX_REASONABLE_AVAILABILITY ≤ n.available) :
    is_valid_availability n.available = false
    ∧ nights_available_count (l₁ ++ n :: l₂) = nights_available_count (l₁ ++ l₂)
    ∧ full_stay_available total (l₁ ++ n :: l₂) = full_stay_available total (l₁ ++ l₂) := by
  have hv : is_valid_availability n.available = false := by
    unfold MAX_REASONABLE_AVAILABILITY at h
    unfold is_valid_availability MAX_REASONABLE_AVAILABILITY
    simp only [Bool.and_eq_false_iff, decide_eq_false_iff_not, not_lt]
    right
    exact h
  have hfilter : (l₁ ++ n :: l₂).filter (fun e => is_valid_availability e.available)
      = (l₁ ++ l₂).filter (fun e => is_valid_availability e.available) := by
    rw [List.filter_append, List.filter_append, List.filter_cons_of_neg]
    simp [hv]
  refine ⟨hv, ?_, ?_⟩
  · unfold nights_available_count
    rw [hfilter]
  · unfold full_stay_available nights_available_count valid_counts
    rw [hfilter]

/-- C4 witness: the sentinel theorem applied at the placeholder count 9999
next to one genuine night. -/
theorem sentinel_night_is_unavailable_witness :
    is_valid_availability (9999 : Int) = false
    ∧ nights_available_count ([] ++ { date := 7, available := 9999, rate := 100 }
        :: [{ date := 8, available := 2, rate := 100 }])
      = nights_available_count ([] ++ [{ date := 8, available := 2, rate := 100 }])
    ∧ full_stay_available 1 ([] ++ { date := 7, available := 9999, rate := 100 }
        :: [{ date := 8, available := 2, rate := 100 }])
      = full_stay_available 1 ([] ++ [{ date := 8, available := 2, rate := 100 }]) :=
  sentinel_night_is_unavailable 1 [] [{ date := 8, available := 2, rate := 100 }]
    { date := 7, available := 9999, rate := 100 } (by decide)

/-- C9: along every finite sequence of recorded events from the initial
state, the delay multiplier stays inside the closed interval from 1 to 10,
the current delay is the base delay scaled by the multiplier and capped at 5,
aborting is equivalent to five or more consecutive throttles, one more
throttle doubles the multiplier capped at 10, and one more success decays a
multiplier above 1 by ten percent, floored at 1. -/
theorem rate_limit_invariant (ops : List RateLimitOp) :
    1 ≤ (applyRateLimitOps ops initRateLimitState).delay_multiplier
    ∧ (applyRateLimitOps ops initRateLimitState).delay_multiplier ≤ 10
    ∧ get_delay (applyRateLimitOps ops initRateLimitState)
        = min ((applyRateLimitOps ops initRateLimitState).base_delay
            * (applyRateLimitOps ops initRateLimitState).delay_multiplier) 5
    ∧ (should_abort (applyRateLimitOps ops initRateLimitState) = true
        ↔ 5 ≤ (applyRateLimitOps ops initRateLimitState).consecutive_429s)
    ∧ (applyRateLimitOps (ops ++ [RateLimitOp.throttle]) initRateLimitState).delay_multiplier
        = min ((applyRateLimitOps ops initRateLimitState).delay_multiplier * 2) 10
    ∧ ∀ e, (applyRateLimitOps (ops ++ [RateLimitOp.success e]) initRateLimitState).delay_multiplier
        = if 1 < (applyRateLimitOps ops initRateLimitState).delay_multiplier
          then max 1 ((applyRateLimitOps ops initRateLimitState).delay_multiplier * (9/10))
          else (applyRateLimitOps ops initRateLimitState).delay_multiplier := by
  have key : ∀ (l : List RateLimitOp) (s : RateLimitState),
      1 ≤ s.delay_multiplier → s.delay_multiplier ≤ 10 →
      s.base_delay = 1/10 → s.max_delay = 5 →
      1 ≤ (applyRateLimitOps l s).delay_multiplier
      ∧ (applyRateLimitOps l s).delay_multiplier ≤ 10
      ∧ (applyRateLimitOps l s).base_delay = 1/10
      ∧ (applyRateLimitOps l s).max_delay = 5 := by
    intro l
    induction l with
    | nil => intro s h1 h2 h3 h4; exact ⟨h1, h2, h3, h4⟩
    | cons op rest ih =>
      intro s h1 h2 h3 h4
      have hstep : applyRateLimitOps (op :: rest) s
          = applyRateLimitOps rest (match op with
            | RateLimitOp.throttle => record_429 s
            | RateLimitOp.success e => record_success e s) := rfl
      rw [hstep]
      cases op with
      | throttle =>
        apply ih
        · simp only [record_429]
          rw [le_min_iff]
          constructor <;> linarith
        · simp only [record_429]
          exact min_le_right _ _
        · exact h3
        · exact h4
      | success e =>
        apply ih
        · simp only [record_success]
          by_cases hm : 1 < s.delay_multiplier
          · rw [if_pos hm]
            exact le_max_left _ _
          · rw [if_neg hm]
            exact h1
        · simp only [record_success]
          by_cases hm : 1 < s.delay_multiplier
          · rw [if_pos hm, max_le_iff]
            constructor <;> linarith
          · rw [if_neg hm]
            exact h2
        · exact h3
        · exact h4
  have hinv := key ops initRateLimitState (le_refl 1)
    (by unfold initRateLimitState; norm_num) rfl rfl
  refine ⟨hinv.1, hinv.2.1, ?_, ?_, ?_, ?_⟩
  · unfold get_delay
    rw [hinv.2.2.2]
  · unfold should_abort
    simp
  · rw [show applyRateLimitOps (ops ++ [RateLimitOp.throttle]) initRateLimitState
        = record_429 (applyRateLimitOps ops initRateLimitState) by
      unfold applyRateLimitOps
      rw [List.foldl_append]
      rfl]
    rfl
  · intro e
    rw [show applyRateLimitOps (ops ++ [RateLimitOp.success e]) initRateLimitState
        = record_success e (applyRateLimitOps ops initRateLimitState) by
      unfold applyRateLimitOps
      rw [List.foldl_append]
      rfl]
    rfl

/-- Against an environment that throttles every submit, the retry loop always
returns None, and the final count of consecutive throttles is the starting
count when already at or past the abort threshold, else it grows by one per
remaining attempt until the budget or the threshold of 5 is exhausted. -/
theorem scrapeLoop_all_throttled (rem idx : Nat) (hasSession : Bool)
    (s : RateLimitState) :
    (scrapeLoop allThrottledEnv rem idx hasSession s).1 = none
    ∧ (scrapeLoop allThrottledEnv rem idx hasSession s).2.consecutive_429s
      = if 5 ≤ s.consecutive_429s then s.consecutive_429s
        else min (s.consecutive_429s + rem) 5 := by
  induction rem generalizing idx hasSession s with
  | zero =>
    constructor
    · rfl
    · simp only [scrapeLoop]
      by_cases h : 5 ≤ s.consecutive_429s
      · rw [if_pos h]
      · rw [if_neg h]
        omega
  | succ rem ih =>
    by_cases h : 5 ≤ s.consecutive_429s
    · have habort : should_abort s = true := by
        unfold should_abort
        exact decide_eq_true h
      constructor
      · simp [scrapeLoop, habort]
      · simp [scrapeLoop, habort, h]
    · have habort : should_abort s = false := by
        unfold should_abort
        simpa using h
      have hstep : scrapeLoop allThrottledEnv (rem + 1) idx hasSession s
          = scrapeLoop allThrottledEnv rem (idx + 1) true (record_429 s) := by
        simp [scrapeLoop, habort, allThrottledEnv]
      rw [hstep]
      rcases ih (idx + 1) true (record_429 s) with ⟨h1, h2⟩
      refine ⟨h1, ?_⟩
      rw [h2]
      simp only [record_429]
      rw [if_neg h]
      by_cases h4 : 5 ≤ s.consecutive_429s + 1
      · rw [if_pos h4]
        omega
      · rw [if_neg h4]
        omega

/-- C10 amended: on a throttled response the scrape sleeps and retries, but
each throttled retry consumes one of the max_retries attempts; the scrape
ends by returning None, never by raising, once the attempt budget or the
abort threshold of 5 consecutive throttles is exhausted, whichever comes
first, so the final throttle count is the smaller of the budget and 5. -/
theorem scrape_all_throttled_aborts (max_retries : Nat) :
    (scrapeRun allThrottledEnv max_retries).1 = none
    ∧ (scrapeRun allThrottledEnv max_retries).2.consecutive_429s = min max_retries 5 := by
  unfold scrapeRun
  rcases scrapeLoop_all_throttled max_retries 0 false initRateLimitState with ⟨h1, h2⟩
  refine ⟨h1, ?_⟩
  rw [h2]
  simp [initRateLimitState]

/-- C10 counterexample: with the default budget of three attempts, three
consecutive throttles end the scrape with None while the abort threshold of
five consecutive throttles was never reached, refuting the claim that
throttled responses are retried without consuming a retry slot until
should_abort trips. -/
theorem scrape_aborts_before_threshold :
    (scrapeRun allThrottledEnv 3).1 = none
    ∧ (scrapeRun allThrottledEnv 3).2.consecutive_429s = 3
    ∧ should_abort (scrapeRun allThrottledEnv 3).2 = false := by
  refine ⟨by decide, by decide, by decide⟩

/-- C2: on the changed-data path (fingerprint differs, guard silent) the run
is always recorded with status error and no_changes false, because the call
into process_multi_night_result raises: it passes the keyword argument
room_keys_cache that the signature does not accept and unpacks a two-element
return into three variables. -/
theorem changed_path_records_error :
    processCallRaises = true
    ∧ ∀ suspicious hashEq : Bool, suspicious = false → hashEq = false →
        runScrapeRecord suspicious hashEq = ("error", false) := by
  refine ⟨by decide, ?_⟩
  intro suspicious hashEq hs hh
  subst hs
  subst hh
  decide

/-- C2 witness: the changed-data path of one concrete run records an error. -/
theorem changed_path_records_error_witness :
    runScrapeRecord false false = ("error", false) :=
  changed_path_records_error.2 false false rfl rfl

/-- C1: the fingerprint of a payload and the previous-hash string rebuilt
from the snapshots its own first run persisted can never match: the current
fingerprint carries one hotel:room:date:count part per night, while the
stored hash carries one hotel:room:count part per aggregated snapshot, so an
identical second run takes the changed-data path instead of being recorded
as a no-changes success. -/
theorem second_run_hash_never_matches :
    compute_multi_night_hash c1Result [(1, "u1")] = "u1:King:7:2"
    ∧ last_scrape_hash_of_snapshots
        (process_multi_night_result c1Ctx c1Result).snapshots = some "u1:King:2"
    ∧ hashesMatch (compute_multi_night_hash c1Result [(1, "u1")])
        (last_scrape_hash_of_snapshots
          (process_multi_night_result c1Ctx c1Result).snapshots) = false
    ∧ runScrapeRecord false
        (hashesMatch (compute_multi_night_hash c1Result [(1, "u1")])
          (last_scrape_hash_of_snapshots
            (process_multi_night_result c1Ctx c1Result).snapshots))
        = ("error", false) := by
  refine ⟨by decide, by decide, by decide, by decide⟩

/-- C7: for the five-night requested range with nightly counts 2, 2, 0, 2, 2
the aggregation emits exactly one snapshot with full-stay availability 0,
four nights available, the partial flag set, a nightly rate equal to the
arithmetic mean of the five returned rates, and a total price of that mean
times the five requested nights. -/
theorem full_range_scenario (r1 r2 r3 r4 r5 : ℚ) :
    ((process_multi_night_result c7Ctx (c7Result r1 r2 r3 r4 r5)).snapshots.map
      (fun s => (s.available_count, s.raw.nights_available, s.raw.partAvail)))
      = [(0, 4, true)]
    ∧ ((process_multi_night_result c7Ctx (c7Result r1 r2 r3 r4 r5)).snapshots.map
      (fun s => s.nightly_rate)) = [(r1 + r2 + r3 + r4 + r5) / 5]
    ∧ ((process_multi_night_result c7Ctx (c7Result r1 r2 r3 r4 r5)).snapshots.map
      (fun s => s.total_price)) = [(r1 + r2 + r3 + r4 + r5) / 5 * 5] := by
  have hsnap : (process_multi_night_result c7Ctx (c7Result r1 r2 r3 r4 r5)).snapshots
      = [mkAggSnapshot c7Ctx 0 5 5 "u1" "Queen Suite"
          [{ date := 0, available := 2, rate := r1 },
           { date := 1, available := 2, rate := r2 },
           { date := 2, available := 0, rate := r3 },
           { date := 3, available := 2, rate := r4 },
           { date := 4, available := 2, rate := r5 }]] := rfl
  rw [hsnap]
  refine ⟨rfl, ?_, ?_⟩
  · simp only [List.map_cons, List.map_nil, mkAggSnapshot, avg_nightly_rate,
      List.cons.injEq, and_true]
    norm_num [List.sum_cons]
    simp
    ring
  · simp only [List.map_cons, List.map_nil, mkAggSnapshot, avg_nightly_rate,
      List.cons.injEq, and_true]
    norm_num [List.sum_cons]
    simp
    ring
